import Mathlib

/-!
Verification development for the IoT telemetry-bridge agent.

The definitions below are a shallow embedding of the agent source:
the change-deduplication stream operator, the cleanup stack, the
capability probe and identifier construction of the device interface
factory, the state assembler change callback, the telemetry message
builder and forwarder slot, the direct-method handlers, and the
lexical-scope behaviour of the telemetry stream producer stop handler.
-/

namespace IoTProject

/-- Model of the dynamic value domain the agent passes through its
streams and messages: primitives plus numeric arrays (the shape of the
count readings), with a distinguished `undef` value. Structural
equality on this type models the deep equality used by the change
filter. -/
inductive JSVal where
  | undef : JSVal
  | null : JSVal
  | bool (b : Bool) : JSVal
  | num (n : Int) : JSVal
  | str (s : String) : JSVal
  | numArr (elems : List Int) : JSVal
deriving DecidableEq, Repr

/-- Body of the subscription the change filter installs on its upstream:
`last_val` starts as `undefined`; on each upstream value, if the value is
deep-equal to `last_val` nothing is emitted, otherwise `last_val` is
updated and the value is emitted downstream. -/
def changesOnlyRun : JSVal → List JSVal → List JSVal
  | _, [] => []
  | last_val, v :: vs =>
    if v = last_val then changesOnlyRun last_val vs
    else v :: changesOnlyRun v vs

/-- The `changes_only` operator applied to a finite upstream event
history: the list of values it emits downstream. The internal
`last_val` slot starts as `undefined`. -/
def changes_only (upstream : List JSVal) : List JSVal :=
  changesOnlyRun JSVal.undef upstream

/-- Helper for the specification-side filter: after `last` has been
emitted, emit each value if and only if it is not deep-equal to the
last emitted value. -/
def changesOnlySpecAux (last : JSVal) : List JSVal → List JSVal
  | [] => []
  | v :: vs =>
    if v = last then changesOnlySpecAux last vs
    else v :: changesOnlySpecAux v vs

/-- The change filter as the specification words it: the first upstream
value is emitted unconditionally, then a value is emitted if and only
if it is not deep-equal to the last emitted value. -/
def changesOnlySpec : List JSVal → List JSVal
  | [] => []
  | v :: vs => v :: changesOnlySpecAux v vs

/-- State of the cleanup orchestrator: the module-level `cleanup_stack`
array (actions modelled by identifying labels, in registration order)
together with the trace of actions executed so far, in execution
order. -/
structure CleanupState where
  stack : List String
  trace : List String
deriving DecidableEq, Repr

/-- One invocation of `do_cleanup`: iterates over
`cleanup_stack.reverse()` awaiting each action in turn. The JavaScript
`Array.prototype.reverse` reverses the array in place and returns the
same array, so after the call the stored stack is also reversed. -/
def do_cleanup (s : CleanupState) : CleanupState :=
  { stack := s.stack.reverse, trace := s.trace ++ s.stack.reverse }

/-- Effect of `n` shutdown triggers, each of which runs `do_cleanup`
once; the source installs no guard preventing a second run. -/
def triggerShutdown : Nat → CleanupState → CleanupState
  | 0, s => s
  | n + 1, s => triggerShutdown n (do_cleanup s)

/-- The ordered list of the 9 required field names, as declared in the
interface factory (and in the shared constants module). -/
def REQUIRED_FIELDS : List String :=
  ["ProductionStatus", "WorkorderId", "ProductionRate", "GoodCount",
   "BadCount", "Temperature", "DeviceError", "EmergencyStop",
   "ResetErrorStatus"]

/-- Whether a string ends with the path separator `/`, expressed on the
character sequence of the string. -/
def endsWithSlash (s : String) : Bool :=
  s.data.getLast? = some '/'

/-- Trailing-separator normalization performed on the device identifier
at the start of interface construction: when the identifier ends with
`/`, the substring up to its last character is taken. -/
def normalizeDeviceId (device_id : String) : String :=
  if endsWithSlash device_id then String.mk device_id.data.dropLast
  else device_id

/-- The node identifiers the factory constructs: the normalized device
identifier followed by `/` and each required field name, in field
order. -/
def nodeIdsOf (device_id : String) : List String :=
  REQUIRED_FIELDS.map (fun suf => normalizeDeviceId device_id ++ "/" ++ suf)

/-- The list of missing field names the factory embeds in its error:
the probe results are paired with their indices, the pairs whose status
code value is nonzero are kept, and each surviving index selects its
field name. Mirrors
`test_reads.map((v,i) => [v,i]).filter(p => p[0] != 0).map(p => fields[p[1]])`. -/
def probeMissing (statuses : List Int) : List String :=
  ((statuses.enum.filter (fun p => ¬ p.2 = 0)).map
    (fun p => REQUIRED_FIELDS.getD p.1 ""))

/-- Outcome of the capability-probe phase of interface construction. -/
inductive ProbeResult where
  | ok : ProbeResult
  | missingFieldsError (missing : List String) : ProbeResult
deriving DecidableEq, Repr

/-- The capability-probe phase of `CreateInterfaces`: given the status
code value of each of the 9 display-name reads, construction proceeds
when every status is 0 and otherwise throws a single error listing the
missing fields; there is no retry. -/
def createInterfacesProbe (statuses : List Int) : ProbeResult :=
  if statuses.all (fun v => v = 0) then ProbeResult.ok
  else ProbeResult.missingFieldsError (probeMissing statuses)

/-- Mutation step of the state assembler change callback
`state[idx][1] = data.value.value`: only the pair at position `idx` has
its second component replaced; every other pair is untouched. -/
def updateSlot : List (String × JSVal) → Nat → JSVal → List (String × JSVal)
  | [], _, _ => []
  | p :: rest, 0, v => (p.1, v) :: rest
  | p :: rest, idx + 1, v => p :: updateSlot rest idx v

/-- The change callback of the telemetry stream producer: mutates the
slot selected by the monitored-item index, then emits the entire
current state object downstream. Returns the new state together with
the emitted snapshot. -/
def changeCallback (state : List (String × JSVal)) (idx : Nat) (v : JSVal) :
    List (String × JSVal) × List (String × JSVal) :=
  (updateSlot state idx v, updateSlot state idx v)

/-- The device reads record carried by the telemetry stream, with the
7 telemetry attributes in their declared order. The two count fields
are two-element numeric readings, of which the telemetry sender keeps
index 1. -/
structure DeviceReads where
  ProductionStatus : Int
  WorkorderId : String
  ProductionRate : Int
  GoodCount : Int × Int
  BadCount : Int × Int
  Temperature : Int
  DeviceError : Int
deriving DecidableEq, Repr

/-- The JavaScript object a `DeviceReads` record denotes: an ordered
association list with the 7 telemetry attribute keys in declaration
order. -/
def deviceReadsObj (r : DeviceReads) : List (String × JSVal) :=
  [("ProductionStatus", JSVal.num r.ProductionStatus),
   ("WorkorderId", JSVal.str r.WorkorderId),
   ("ProductionRate", JSVal.num r.ProductionRate),
   ("GoodCount", JSVal.numArr [r.GoodCount.1, r.GoodCount.2]),
   ("BadCount", JSVal.numArr [r.BadCount.1, r.BadCount.2]),
   ("Temperature", JSVal.num r.Temperature),
   ("DeviceError", JSVal.num r.DeviceError)]

/-- Lodash `omit`: drops the named keys of an object, keeping the order
of the remaining properties. -/
def omitKeys (ks : List String) (o : List (String × JSVal)) :
    List (String × JSVal) :=
  o.filter (fun p => ¬ p.1 ∈ ks)

/-- Effect of writing one property inside an object literal: if the key
is already present its value is overwritten in place, otherwise the
property is appended at the end. This is the ordering semantics of
`{ ...spread, key: value }`. -/
def objSet (o : List (String × JSVal)) (k : String) (v : JSVal) :
    List (String × JSVal) :=
  if o.any (fun p => p.1 = k) then
    o.map (fun p => if p.1 = k then (k, v) else p)
  else o ++ [(k, v)]

/-- The object `SendTelemetry` serializes when a value is present:
the current reads with `DeviceError` and `ProductionRate` omitted,
`GoodCount` and `BadCount` overwritten with element 1 of their reading,
and `type` set to the string `telemetry`. -/
def SendTelemetryData (r : DeviceReads) : List (String × JSVal) :=
  objSet
    (objSet
      (objSet (omitKeys ["DeviceError", "ProductionRate"] (deviceReadsObj r))
        "GoodCount" (JSVal.num r.GoodCount.2))
      "BadCount" (JSVal.num r.BadCount.2))
    "type" (JSVal.str "telemetry")

/-- The telemetry forwarder slot `televalue`: `none` until the first
stream emission arrives. -/
structure ForwarderState where
  televalue : Option DeviceReads
deriving DecidableEq, Repr

/-- The stream subscriber of the forwarder: every emission overwrites
the single slot (last value wins). -/
def forwarderNext (_s : ForwarderState) (r : DeviceReads) : ForwarderState :=
  { televalue := some r }

/-- What one timer tick of `SendTelemetry` does: either it publishes
one outbound message, or it logs a warning and publishes nothing. -/
inductive TickOutcome where
  | published (msg : List (String × JSVal)) : TickOutcome
  | warned : TickOutcome
deriving DecidableEq, Repr

/-- One tick of the repeating `SendTelemetry` timer: if the slot holds
a value the corresponding telemetry object is sent as one message,
otherwise a warning is logged and no message is queued; the slot is
left unchanged either way. -/
def sendTelemetryTick (s : ForwarderState) : TickOutcome × ForwarderState :=
  match s.televalue with
  | some r => (TickOutcome.published (SendTelemetryData r), s)
  | none => (TickOutcome.warned, s)

/-- The structured status result a device write or call resolves with:
a numeric status code value (`statusCode.value`, 0 on success) and its
textual form (`statusCode.toString()`). -/
structure OpcStatus where
  value : Int
  text : String
deriving DecidableEq, Repr

/-- The observable effects of one remote-method handler invocation:
which device methods it called, which reported twin properties it
updated (keyed property with its numeric value), and the response it
sent back, if any, as a status code with optional payload. -/
structure DirectMethodOutcome where
  deviceCalls : List String
  twinUpdates : List (String × Int)
  response : Option (Nat × Option String)
deriving DecidableEq, Repr

/-- Handler registered for the remote method `EmergencyStop`: it awaits
the device `EmergencyStop` call and, on status code value 0, responds
with 200 and no payload; on any other status code value it responds
with 400 carrying the textual form of the status. It never throws on a
nonzero status. `opcres` is the structured result the device call
resolved with. -/
def emergencyStopHandler (opcres : OpcStatus) : DirectMethodOutcome :=
  { deviceCalls := ["EmergencyStop"],
    twinUpdates := [],
    response :=
      if opcres.value = 0 then some (200, none)
      else some (400, some opcres.text) }

/-- Handler registered for the remote method `ResetErrorStatus`: same
response mapping as `EmergencyStop`, over the device `ResetErrorStatus`
call. -/
def resetErrorStatusHandler (opcres : OpcStatus) : DirectMethodOutcome :=
  { deviceCalls := ["ResetErrorStatus"],
    twinUpdates := [],
    response :=
      if opcres.value = 0 then some (200, none)
      else some (400, some opcres.text) }

/-- Handler registered for the remote method `MaintenanceDone`: it
performs no device call and updates the reported twin property
`LastMaintenanceDate` to the invocation time; its body contains no
`res.send`, so no response is produced. `now` is the clock reading at
invocation. -/
def maintenanceDoneHandler (now : Int) : DirectMethodOutcome :=
  { deviceCalls := [],
    twinUpdates := [("LastMaintenanceDate", now)],
    response := none }

/-- The statements of the telemetry stream producer stop handler, in
order. -/
inductive StopStep where
  | offChanged : StopStep
  | terminateMonitored : StopStep
  | terminateSubscription : StopStep
deriving DecidableEq, Repr

/-- The identifiers each stop-handler statement reads from the
enclosing lexical scope: the first statement reads `varbox` (the off
call goes through `varbox.monitored` and `varbox.changeCallback`), the
second reads the bare identifier `monitored`, and the third reads the
bare identifier `opc_sub`. -/
def stopStepFreeIdents : StopStep → List String
  | StopStep.offChanged => ["varbox"]
  | StopStep.terminateMonitored => ["monitored"]
  | StopStep.terminateSubscription => ["opc_sub"]

/-- The identifiers in scope inside the stop handler: the bindings of
`CreateInterfaces` that enclose it, its parameters, and the module
scope. Neither `monitored` nor `opc_sub` is ever declared as a
standalone binding; they exist only as properties of `varbox`. -/
def stopScope : List String :=
  ["session", "device_id", "readInterval",
   "fields", "node_ids", "test_reads", "all_ok", "current_values",
   "state", "varbox", "telemetryStream", "methods",
   "yargs", "hideBin", "opc", "xs", "MemoryStream", "changes_only",
   "exit", "ENV_PREFIX", "verbose", "INFO", "WARN", "ERR",
   "cleanup_stack", "do_cleanup", "do_emergency", "Main",
   "MakeOPCConnection", "CreateInterfaces", "CreateAzureInterfaces",
   "SendTelemetry"]

/-- A thrown JavaScript error in the stop-handler model: reading an
identifier that no enclosing scope declares throws a `ReferenceError`
naming the identifier. -/
inductive JSErr where
  | referenceError (ident : String) : JSErr
deriving DecidableEq, Repr

/-- Execution of a statement list under a lexical scope: statements run
in order; the first statement that reads an identifier not in scope
throws a `ReferenceError` for that identifier and aborts the rest,
otherwise the list of executed statements is returned. -/
def runStopSteps (scope : List String) : List StopStep → Except JSErr (List StopStep)
  | [] => Except.ok []
  | s :: rest =>
    match (stopStepFreeIdents s).find? (fun id => ¬ scope.contains id) with
    | some id => Except.error (JSErr.referenceError id)
    | none => (runStopSteps scope rest).map (fun t => s :: t)

/-- The stop handler body, in source order. -/
def stopBody : List StopStep :=
  [StopStep.offChanged, StopStep.terminateMonitored,
   StopStep.terminateSubscription]

/-- The result of executing the telemetry stream producer stop
handler. -/
def stopHandlerRun : Except JSErr (List StopStep) :=
  runStopSteps stopScope stopBody

/-- Key list of an object, in property order. -/
def objKeys (o : List (String × JSVal)) : List String :=
  o.map Prod.fst

/-- Whether a character sequence contains two adjacent `/`
characters. -/
def hasDoubleSepChars : List Char → Bool
  | c1 :: c2 :: rest =>
    (c1 = '/' && c2 = '/') || hasDoubleSepChars (c2 :: rest)
  | _ => false

/-- Whether a string contains a double path separator `//`. -/
def hasDoubleSep (s : String) : Bool :=
  hasDoubleSepChars s.data

/-- The subscription body of the change filter agrees with the
specification-side recursion once a last value is tracked: both emit a
value exactly when it differs from the tracked value and update the
tracked value on emission. -/
theorem changesOnlyRun_eq_specAux (vs : List JSVal) :
    ∀ last, changesOnlyRun last vs = changesOnlySpecAux last vs := by
  induction vs with
  | nil => intro last; rfl
  | cons v vs ih =>
    intro last
    simp only [changesOnlyRun, changesOnlySpecAux]
    split
    · exact ih last
    · exact congrArg _ (ih v)

/-- Claim C1 as stated is false on the source: the internal last-value
slot of the change filter starts as `undefined`, so an upstream whose
first value is `undefined` gets that value suppressed rather than
emitted unconditionally, while the specification-side filter emits
it. -/
theorem changes_only_first_value_counterexample :
    changes_only [JSVal.undef] = [] ∧
    changesOnlySpec [JSVal.undef] = [JSVal.undef] :=
  ⟨rfl, rfl⟩

/-- Claim C1 (amended): for every upstream stream whose first value is
not deep-equal to `undefined`, the change filter emits the first value
unconditionally and then emits a value exactly when it is not
deep-equal to the last emitted value; in particular two consecutive
deep-equal values yield exactly one emission and a third distinct value
always emits. -/
theorem changes_only_dedup (v : JSVal) (vs : List JSVal)
    (h : ¬ v = JSVal.undef) :
    changes_only (v :: vs) = changesOnlySpec (v :: vs) ∧
    (∀ v2 v3 : JSVal, v2 = v → ¬ v3 = v →
      changes_only [v, v2, v3] = [v, v3]) := by
  constructor
  · simp only [changes_only, changesOnlyRun, changesOnlySpec, if_neg h]
    exact congrArg _ (changesOnlyRun_eq_specAux vs v)
  · intro v2 v3 h2 h3
    subst h2
    simp [changes_only, changesOnlyRun, h, h3]

/-- Witness for the amended claim C1 at the upstream history
`1, 1, 2`: exactly two emissions, the first value and the third. -/
theorem changes_only_dedup_witness :
    changes_only [JSVal.num 1, JSVal.num 1, JSVal.num 2] =
      [JSVal.num 1, JSVal.num 2] :=
  (changes_only_dedup (JSVal.num 1) [JSVal.num 1, JSVal.num 2]
      (by decide)).2 (JSVal.num 1) (JSVal.num 2) rfl (by decide)

/-- Claim C2 as stated is false on the source: with actions registered
in order `A, B, C`, a second shutdown trigger runs the whole sequence
again — there is no guard making the cleanup run at most once — and
because the iteration reverses the stored stack in place, the second
run executes the actions in original registration order. -/
theorem do_cleanup_at_most_once_counterexample :
    (triggerShutdown 2 { stack := ["A", "B", "C"], trace := [] }).trace =
      ["C", "B", "A", "A", "B", "C"] ∧
    ¬ (triggerShutdown 2 { stack := ["A", "B", "C"], trace := [] }).trace =
      ["C", "B", "A"] := by
  exact ⟨rfl, by decide⟩

/-- Claim C2 (amended): a single run of `do_cleanup` executes every
registered action, each awaited in turn, in exact reverse order of
registration; the sequence is however not guarded to run at most once
per process lifetime: a second trigger executes all actions again, this
time in original registration order because the stack was reversed in
place. -/
theorem do_cleanup_order (actions : List String) :
    (do_cleanup { stack := actions, trace := [] }).trace = actions.reverse ∧
    (do_cleanup (do_cleanup { stack := actions, trace := [] })).trace =
      actions.reverse ++ actions := by
  constructor
  · simp [do_cleanup]
  · simp [do_cleanup]

/-- Bridge between the source form of the missing-field computation
(filter over index-value pairs, then index into the field list) and the
direct form (filter the fields zipped with their statuses, keep the
names): they agree whenever there are enough field names. -/
theorem enumFilterMap_eq_zipFilterMap (sts : List Int) :
    ∀ (k : Nat) (names : List String), sts.length + k ≤ names.length →
      ((sts.enumFrom k).filter (fun p => ¬ p.2 = 0)).map
          (fun p => names.getD p.1 "") =
        (((names.drop k).zip sts).filter (fun p => ¬ p.2 = 0)).map
          Prod.fst := by
  induction sts with
  | nil => intro k names _; simp
  | cons s rest ih =>
    intro k names hlen
    have hk : k < names.length := by
      simp only [List.length_cons] at hlen; omega
    have hdrop : names.drop k = names.get ⟨k, hk⟩ :: names.drop (k + 1) :=
      List.drop_eq_getElem_cons hk
    have henum : (s :: rest).enumFrom k = (k, s) :: rest.enumFrom (k + 1) := rfl
    have hrec := ih (k + 1) names (by simp only [List.length_cons] at hlen; omega)
    rw [henum, hdrop, List.zip_cons_cons, List.filter_cons, List.filter_cons]
    by_cases hs : s = 0
    · simpa [hs] using hrec
    · simp [hs]
      constructor
      · simp [List.getElem?_eq_getElem hk]
      · simpa using hrec

/-- Claim C3: if any of the 9 capability probes fails, interface
construction fails with the missing-fields error, and the error lists
exactly the field names whose probe status was nonzero, in original
field order; construction performs the probe once, with no retry. -/
theorem createInterfaces_missing_fields (statuses : List Int)
    (hlen : statuses.length = 9)
    (hfail : ¬ statuses.all (fun v => v = 0) = true) :
    createInterfacesProbe statuses =
      ProbeResult.missingFieldsError
        (((REQUIRED_FIELDS.zip statuses).filter (fun p => ¬ p.2 = 0)).map
          Prod.fst) := by
  simp only [createInterfacesProbe, if_neg hfail]
  have h := enumFilterMap_eq_zipFilterMap statuses 0 REQUIRED_FIELDS
    (by simp [hlen, REQUIRED_FIELDS])
  simpa [probeMissing, List.enum] using congrArg ProbeResult.missingFieldsError h

/-- Witness for claim C3 at a probe where exactly the third and the
ninth of the 9 fields fail: the error lists exactly
`ProductionRate` and `ResetErrorStatus`, in field order. -/
theorem createInterfaces_missing_fields_witness :
    createInterfacesProbe [0, 0, 5, 0, 0, 0, 0, 0, 7] =
      ProbeResult.missingFieldsError ["ProductionRate", "ResetErrorStatus"] := by
  have h := createInterfaces_missing_fields [0, 0, 5, 0, 0, 0, 0, 0, 7]
    (by decide) (by decide)
  exact h.trans (by decide)

/-- Claim C4 as stated is false on the source: the periodic telemetry
message carries no `Name` key at all — nothing in the sender ever adds
the device name to the reads object — shown here at a concrete reads
record, for which the message keys are exactly the five remaining read
keys followed by `type`. -/
theorem telemetry_name_counterexample :
    objKeys (SendTelemetryData
        { ProductionStatus := 1, WorkorderId := "w1", ProductionRate := 10,
          GoodCount := (0, 5), BadCount := (0, 2), Temperature := 70,
          DeviceError := 3 }) =
      ["ProductionStatus", "WorkorderId", "GoodCount", "BadCount",
       "Temperature", "type"] ∧
    ¬ "Name" ∈ objKeys (SendTelemetryData
        { ProductionStatus := 1, WorkorderId := "w1", ProductionRate := 10,
          GoodCount := (0, 5), BadCount := (0, 2), Temperature := 70,
          DeviceError := 3 }) := by
  exact ⟨rfl, by decide⟩

/-- Claim C4 (amended): every periodic telemetry message is an object
whose keys are exactly `ProductionStatus`, `WorkorderId`, `GoodCount`,
`BadCount`, `Temperature` and `type`; it carries `type = "telemetry"`,
never contains the keys `DeviceError` or `ProductionRate`, carries
`GoodCount` and `BadCount` flattened to the single numeric reading at
index 1, and contains no `Name` key. -/
theorem telemetry_message_shape (r : DeviceReads) :
    objKeys (SendTelemetryData r) =
      ["ProductionStatus", "WorkorderId", "GoodCount", "BadCount",
       "Temperature", "type"] ∧
    (SendTelemetryData r).lookup "type" = some (JSVal.str "telemetry") ∧
    (SendTelemetryData r).lookup "GoodCount" =
      some (JSVal.num r.GoodCount.2) ∧
    (SendTelemetryData r).lookup "BadCount" = some (JSVal.num r.BadCount.2) ∧
    ¬ "DeviceError" ∈ objKeys (SendTelemetryData r) ∧
    ¬ "ProductionRate" ∈ objKeys (SendTelemetryData r) ∧
    ¬ "Name" ∈ objKeys (SendTelemetryData r) := by
  have hk : objKeys (SendTelemetryData r) =
      ["ProductionStatus", "WorkorderId", "GoodCount", "BadCount",
       "Temperature", "type"] := rfl
  refine ⟨hk, rfl, rfl, rfl, ?_, ?_, ?_⟩ <;> rw [hk] <;> decide

/-- Witness for the amended claim C4 at a concrete reads record:
the computed message carries the flattened counts and the `type`
marker. -/
theorem telemetry_message_shape_witness :
    (SendTelemetryData
        { ProductionStatus := 0, WorkorderId := "w2", ProductionRate := 40,
          GoodCount := (0, 11), BadCount := (0, 4), Temperature := 65,
          DeviceError := 0 }).lookup "GoodCount" = some (JSVal.num 11) :=
  (telemetry_message_shape
    { ProductionStatus := 0, WorkorderId := "w2", ProductionRate := 40,
      GoodCount := (0, 11), BadCount := (0, 4), Temperature := 65,
      DeviceError := 0 }).2.2.1

/-- Claim C5 as stated is false on the source: the `MaintenanceDone`
handler never calls the response-send function, so the caller does not
receive a success response; shown at invocation time 0, where the
outcome carries no response at all. -/
theorem maintenance_done_counterexample :
    (maintenanceDoneHandler 0).response = none ∧
    ¬ (∃ payload, (maintenanceDoneHandler 0).response = some (200, payload)) := by
  refine ⟨rfl, ?_⟩
  rintro ⟨p, hp⟩
  simp [maintenanceDoneHandler] at hp

/-- Claim C5 (amended): the remote method `MaintenanceDone` performs no
device-side call and updates only the reported twin property
`LastMaintenanceDate` to the invocation time; it sends no method
response at all, so the caller does not receive a success response. -/
theorem maintenance_done_effects (now : Int) :
    (maintenanceDoneHandler now).deviceCalls = [] ∧
    (maintenanceDoneHandler now).twinUpdates = [("LastMaintenanceDate", now)] ∧
    (maintenanceDoneHandler now).response = none :=
  ⟨rfl, rfl, rfl⟩

/-- Claim C6: each of the remote methods `EmergencyStop` and
`ResetErrorStatus` invokes the corresponding device method and maps its
structured status result to the response: status code value 0 yields
the success response 200 with no payload, any nonzero status code
yields the failure response 400 carrying the textual form of the
status, and in every case a response is produced — a nonzero status is
never raised as an exception. -/
theorem remote_method_status_mapping (opcres : OpcStatus) :
    (emergencyStopHandler opcres).deviceCalls = ["EmergencyStop"] ∧
    (resetErrorStatusHandler opcres).deviceCalls = ["ResetErrorStatus"] ∧
    (opcres.value = 0 →
      (emergencyStopHandler opcres).response = some (200, none) ∧
      (resetErrorStatusHandler opcres).response = some (200, none)) ∧
    (¬ opcres.value = 0 →
      (emergencyStopHandler opcres).response = some (400, some opcres.text) ∧
      (resetErrorStatusHandler opcres).response =
        some (400, some opcres.text)) ∧
    (∃ resp, (emergencyStopHandler opcres).response = some resp) ∧
    (∃ resp, (resetErrorStatusHandler opcres).response = some resp) := by
  refine ⟨rfl, rfl, ?_, ?_, ?_, ?_⟩
  · intro h
    constructor <;> simp [emergencyStopHandler, resetErrorStatusHandler, h]
  · intro h
    constructor <;> simp [emergencyStopHandler, resetErrorStatusHandler, h]
  · by_cases h : opcres.value = 0
    · exact ⟨(200, none), by simp [emergencyStopHandler, h]⟩
    · exact ⟨(400, some opcres.text), by simp [emergencyStopHandler, h]⟩
  · by_cases h : opcres.value = 0
    · exact ⟨(200, none), by simp [resetErrorStatusHandler, h]⟩
    · exact ⟨(400, some opcres.text), by simp [resetErrorStatusHandler, h]⟩

/-- Witness for claim C6 at a nonzero status result: the failure
response 400 carries the textual form of the status. -/
theorem remote_method_status_mapping_witness :
    (emergencyStopHandler { value := 3, text := "BadInternalError" }).response =
      some (400, some "BadInternalError") :=
  ((remote_method_status_mapping
      { value := 3, text := "BadInternalError" }).2.2.2.1 (by decide)).1

/-- Folding the forwarder subscriber over a nonempty list of stream
emissions leaves the slot holding exactly the most recent emission. -/
theorem foldl_forwarderNext_televalue (notifs : List DeviceReads) :
    ∀ (s : ForwarderState) (h : ¬ notifs = []),
      (notifs.foldl forwarderNext s).televalue = some (notifs.getLast h) := by
  induction notifs with
  | nil => intro s h; exact absurd rfl h
  | cons r rest ih =>
    intro s h
    cases rest with
    | nil => rfl
    | cons r2 rest2 =>
      rw [List.foldl_cons, ih (forwarderNext s r) (by simp),
        List.getLast_cons_cons]

/-- A tick of the telemetry timer with a filled slot publishes exactly
the slot value and leaves the slot unchanged. -/
theorem sendTelemetryTick_of_some (st : ForwarderState) (r : DeviceReads)
    (h : st.televalue = some r) :
    sendTelemetryTick st = (TickOutcome.published (SendTelemetryData r), st) := by
  cases st with
  | mk tv => cases tv <;> simp_all [sendTelemetryTick]

/-- Claim C7: the forwarder keeps a single last-value-wins slot updated
on every stream emission; a send tick after any nonempty burst of
emissions publishes the message built from the most recent emission,
never a stale one, and a tick before any emission has arrived logs a
warning and queues no message, leaving the slot untouched. -/
theorem forwarder_last_value_wins (s : ForwarderState)
    (notifs : List DeviceReads) :
    ((h : ¬ notifs = []) →
      sendTelemetryTick (notifs.foldl forwarderNext s) =
        (TickOutcome.published (SendTelemetryData (notifs.getLast h)),
          notifs.foldl forwarderNext s)) ∧
    (notifs = [] → s.televalue = none →
      sendTelemetryTick (notifs.foldl forwarderNext s) =
        (TickOutcome.warned, s)) := by
  constructor
  · intro h
    exact sendTelemetryTick_of_some _ _ (foldl_forwarderNext_televalue notifs s h)
  · intro hnil hs
    subst hnil
    cases s with
    | mk tv => simp_all [sendTelemetryTick]

/-- Witness for claim C7: after two emissions between ticks, the tick
publishes the message built from the second emission. -/
theorem forwarder_last_value_wins_witness :
    (sendTelemetryTick
        ([{ ProductionStatus := 0, WorkorderId := "a", ProductionRate := 1,
            GoodCount := (0, 1), BadCount := (0, 0), Temperature := 60,
            DeviceError := 0 },
          { ProductionStatus := 1, WorkorderId := "b", ProductionRate := 2,
            GoodCount := (0, 2), BadCount := (0, 1), Temperature := 61,
            DeviceError := 0 }].foldl forwarderNext
          { televalue := none })).1 =
      TickOutcome.published (SendTelemetryData
        { ProductionStatus := 1, WorkorderId := "b", ProductionRate := 2,
          GoodCount := (0, 2), BadCount := (0, 1), Temperature := 61,
          DeviceError := 0 }) := by
  have h := (forwarder_last_value_wins { televalue := none }
      [{ ProductionStatus := 0, WorkorderId := "a", ProductionRate := 1,
         GoodCount := (0, 1), BadCount := (0, 0), Temperature := 60,
         DeviceError := 0 },
       { ProductionStatus := 1, WorkorderId := "b", ProductionRate := 2,
         GoodCount := (0, 2), BadCount := (0, 1), Temperature := 61,
         DeviceError := 0 }]).1 (by decide)
  rw [h]
  rfl

/-- Claim C8 as stated is false on the source: interface construction
derives no human-readable display name at all. For the identifier
`ns=2;s=Device1/` the only values construction derives from the
identifier are the normalized identifier and the field identifiers,
none of which equals `Device1`, and the telemetry message — the one
external surface where a derived name could appear — carries no `Name`
key. -/
theorem device_name_counterexample :
    normalizeDeviceId "ns=2;s=Device1/" = "ns=2;s=Device1" ∧
    ¬ normalizeDeviceId "ns=2;s=Device1/" = "Device1" ∧
    ¬ "Device1" ∈ nodeIdsOf "ns=2;s=Device1/" ∧
    ¬ "Name" ∈ objKeys (SendTelemetryData
        { ProductionStatus := 0, WorkorderId := "w3", ProductionRate := 0,
          GoodCount := (0, 0), BadCount := (0, 0), Temperature := 0,
          DeviceError := 0 }) := by
  refine ⟨by decide, by decide, by decide, by decide⟩

/-- Claim C8 (amended): given the device identifier `ns=2;s=Device1/`,
construction normalizes away the trailing separator, yielding
`ns=2;s=Device1`, and every constructed field identifier equals the
normalized identifier followed by `/` and the field name, containing no
double separator; no human-readable display name is derived from the
identifier. -/
theorem device_id_normalization :
    normalizeDeviceId "ns=2;s=Device1/" = "ns=2;s=Device1" ∧
    nodeIdsOf "ns=2;s=Device1/" =
      REQUIRED_FIELDS.map (fun f => "ns=2;s=Device1" ++ "/" ++ f) ∧
    (nodeIdsOf "ns=2;s=Device1/").all (fun id => ¬ hasDoubleSep id) = true := by
  refine ⟨by decide, by decide, by decide⟩

/-- The slot update of the change callback preserves the number of
state slots. -/
theorem updateSlot_length (state : List (String × JSVal)) :
    ∀ (idx : Nat) (v : JSVal),
      (updateSlot state idx v).length = state.length := by
  induction state with
  | nil => intro idx v; rfl
  | cons p rest ih =>
    intro idx v
    cases idx with
    | zero => rfl
    | succ n => simp [updateSlot, ih]

/-- The slot update of the change callback leaves every slot other than
the selected one unchanged. -/
theorem updateSlot_getD_ne (state : List (String × JSVal)) :
    ∀ (idx j : Nat) (v : JSVal), ¬ j = idx →
      (updateSlot state idx v).getD j ("", JSVal.undef) =
        state.getD j ("", JSVal.undef) := by
  induction state with
  | nil => intro idx j v _; rfl
  | cons p rest ih =>
    intro idx j v h
    cases idx with
    | zero =>
      cases j with
      | zero => exact absurd rfl h
      | succ m => rfl
    | succ n =>
      cases j with
      | zero => rfl
      | succ m =>
        simp only [updateSlot, List.getD_cons_succ]
        exact ih n m v (fun hc => h (congrArg Nat.succ hc))

/-- The slot update of the change callback replaces exactly the value
of the selected slot, keeping its field name. -/
theorem updateSlot_getD_eq (state : List (String × JSVal)) :
    ∀ (idx : Nat) (v : JSVal), idx < state.length →
      (updateSlot state idx v).getD idx ("", JSVal.undef) =
        ((state.getD idx ("", JSVal.undef)).1, v) := by
  induction state with
  | nil => intro idx v h; simp at h
  | cons p rest ih =>
    intro idx v h
    cases idx with
    | zero => rfl
    | succ n =>
      simp only [updateSlot, List.getD_cons_succ]
      exact ih n v (by simpa using h)

/-- Claim C9: on each change notification the state assembler mutates
only the state slot whose index matches the notified monitored item —
the name of that slot and the entire contents of every other slot are
unchanged — and then emits the complete current state object, not a
diff, downstream. -/
theorem changeCallback_frame (state : List (String × JSVal)) (idx : Nat)
    (v : JSVal) :
    (changeCallback state idx v).2 = (changeCallback state idx v).1 ∧
    ((changeCallback state idx v).1).length = state.length ∧
    (∀ j, ¬ j = idx →
      ((changeCallback state idx v).1).getD j ("", JSVal.undef) =
        state.getD j ("", JSVal.undef)) ∧
    (idx < state.length →
      ((changeCallback state idx v).1).getD idx ("", JSVal.undef) =
        ((state.getD idx ("", JSVal.undef)).1, v)) := by
  refine ⟨rfl, updateSlot_length state idx v, ?_, ?_⟩
  · intro j hj
    exact updateSlot_getD_ne state idx j v hj
  · intro h
    exact updateSlot_getD_eq state idx v h

/-- Witness for claim C9 on a concrete two-slot state: updating slot 1
leaves slot 0 unchanged, and the updated slot keeps its name with the
new value. -/
theorem changeCallback_frame_witness :
    ((changeCallback [("GoodCount", JSVal.num 1), ("Temperature", JSVal.num 2)]
        1 (JSVal.num 9)).1).getD 0 ("", JSVal.undef) =
      ("GoodCount", JSVal.num 1) ∧
    ((changeCallback [("GoodCount", JSVal.num 1), ("Temperature", JSVal.num 2)]
        1 (JSVal.num 9)).1).getD 1 ("", JSVal.undef) =
      ("Temperature", JSVal.num 9) := by
  have h := changeCallback_frame
    [("GoodCount", JSVal.num 1), ("Temperature", JSVal.num 2)] 1 (JSVal.num 9)
  exact ⟨h.2.2.1 0 (by decide), (h.2.2.2 (by decide)).trans (by decide)⟩

/-- Claim C10: executing the telemetry stream producer stop handler
always throws a `ReferenceError`: after the off call (which goes
through `varbox`), the next statement reads the bare identifier
`monitored`, which no enclosing scope declares — the handle exists only
as a property of `varbox` — so execution aborts before either terminate
call and never completes the monitored-item and subscription teardown
through this path; `opc_sub` is likewise not in any enclosing scope. -/
theorem stop_handler_reference_error :
    stopHandlerRun = Except.error (JSErr.referenceError "monitored") ∧
    stopScope.contains "monitored" = false ∧
    stopScope.contains "opc_sub" = false ∧
    (∀ executed, ¬ stopHandlerRun = Except.ok executed) := by
  refine ⟨rfl, by decide, by decide, ?_⟩
  intro executed hok
  rw [show stopHandlerRun = Except.error (JSErr.referenceError "monitored")
    from rfl] at hok
  exact Except.noConfusion hok

/-- Witness for claim C10: the run of the stop handler is not a
successful run of all three statements. -/
theorem stop_handler_reference_error_witness :
    ¬ stopHandlerRun =
      Except.ok [StopStep.offChanged, StopStep.terminateMonitored,
        StopStep.terminateSubscription] :=
  (stop_handler_reference_error).2.2.2
    [StopStep.offChanged, StopStep.terminateMonitored,
      StopStep.terminateSubscription]

end IoTProject
